import Mathlib

/-!
Shallow embedding of the backend logic of `src/app.py` (a Streamlit academic
administration dashboard) and proofs about it.

Modelling conventions:
- Each sqlite table is a Lean list; every backend function opens its own
  connection and touches only some tables, so each Lean function takes exactly
  the tables the Python function reads or writes.
- The AUTOINCREMENT primary key of `leave_requests` is modelled by a `next_id`
  counter carried next to the table.
- The ambient clock (`datetime.date.today()`) is a parameter: the formatted
  date strings are passed in.
- Parsing of uploaded files happens in external libraries (pandas, json,
  PyPDF2); a parse that raises is modelled as `none`, a parse that succeeds as
  `some` of the produced value. The exception text `str(e)` is a parameter.
- In the Python sqlite3 binding, `cursor.execute("INSERT ...")` opens an
  implicit transaction that persists only at `conn.commit()`; calling
  `conn.close()` without committing discards the pending changes. The
  `except` branch of `upload_ai_training_data` closes without committing, so
  the embedding returns the table unchanged on that path.
- The outbound Groq chat-completion call is modelled by recording the call
  (system prompt, user prompt, model) and taking the remote behaviour as a
  function parameter `api`; `Except.error` is the raised-exception case.
- The filesystem used by `generate_certificate` is an association list from
  path to content; PDF bytes are abstracted to strings (no claim depends on
  the byte-level encoding produced by reportlab/PyPDF2, only on which drawn
  text the page carries and on which files exist).
-/

namespace SAP

/-- Row of the `leave_requests` table (`initialize_db`, app.py lines 35-45). -/
structure LeaveRequest where
  id : Nat
  student_id : String
  mentor_id : String
  days : Int
  start_date : String
  end_date : String
  status : String
deriving DecidableEq

/-- The tables touched by the leave workflow: `leave_requests` with its
    autoincrement counter, and `mentor_assignments`. -/
structure DB where
  leave_requests : List LeaveRequest
  mentor_assignments : List (String × String)
  next_id : Nat
deriving DecidableEq

/-- `assign_mentor` (app.py lines 75-80): INSERT OR REPLACE keyed on
    `student_id`. -/
def assign_mentor (assignments : List (String × String))
    (student_id mentor_id : String) : List (String × String) :=
  (student_id, mentor_id) :: assignments.filter (fun a => !(a.1 == student_id))

/-- Success message built at app.py line 109. -/
def leave_message (days : Int) (mentor_id status : String) : String :=
  "Leave request for " ++ toString days ++ " days sent to " ++ mentor_id ++
    ". Status: " ++ status ++ "."

/-- The INSERT at app.py lines 101-104 followed by the return at line 109. -/
def insertLeave (db : DB) (student_id mentor_id : String) (days : Int)
    (start_date end_date status : String) : DB × Bool × String :=
  ({ db with
      leave_requests := db.leave_requests ++
        [⟨db.next_id, student_id, mentor_id, days, start_date, end_date, status⟩],
      next_id := db.next_id + 1 },
    true, leave_message days mentor_id status)

/-- `process_leave_request` (app.py lines 82-109). The mentor row is fetched
    before the branch, exactly as in the source; `start_date` and `end_date`
    are the date strings computed at lines 83-84 from the ambient clock. -/
def process_leave_request (db : DB) (student_id : String) (days : Int)
    (start_date end_date : String) : DB × Bool × String :=
  let mentor : Option String :=
    (db.mentor_assignments.find? (fun a => a.1 == student_id)).map Prod.snd
  if days ≤ 5 then
    insertLeave db student_id "Auto-Approved" days start_date end_date "approved"
  else
    match mentor with
    | some m => insertLeave db student_id m days start_date end_date "pending"
    | none => (db, false, "No mentor found for this student.")

/-- UPDATE leave_requests SET status = s WHERE id = leave_id. -/
def set_status (reqs : List LeaveRequest) (leave_id : Nat) (s : String) :
    List LeaveRequest :=
  reqs.map (fun r => if r.id == leave_id then { r with status := s } else r)

/-- `approve_leave_request` (app.py lines 127-132). -/
def approve_leave_request (reqs : List LeaveRequest) (leave_id : Nat) :
    List LeaveRequest :=
  set_status reqs leave_id "approved"

/-- `reject_leave_request` (app.py lines 134-139). -/
def reject_leave_request (reqs : List LeaveRequest) (leave_id : Nat) :
    List LeaveRequest :=
  set_status reqs leave_id "rejected"

/-- Observation: the row of `leave_requests` with the given id, if any. -/
def find_request (reqs : List LeaveRequest) (leave_id : Nat) :
    Option LeaveRequest :=
  reqs.find? (fun r => r.id == leave_id)

/-- An uploaded file as `upload_ai_training_data` dispatches on it (app.py
    lines 141-171). `tabular` covers the .csv and .xlsx branches: the outer
    `Option` is the whole-file parse (`pd.read_csv` / `pd.read_excel`), each
    row entry is the result of `json.dumps(row.to_dict())` for that row
    (`none` when serialization raises). `jsonFile` holds the result of
    `json.dumps(json.load(file))`. `pdfFile` holds `page.extract_text()` for
    each page ("" when a page yields no text). `other` is any other suffix. -/
inductive UploadedFile where
  | tabular (parse : Option (List (Option String)))
  | jsonFile (parse : Option String)
  | pdfFile (parse : Option (List String))
  | other
deriving DecidableEq

/-- The row loop at app.py lines 148-149: each row adds one pending INSERT on
    the open transaction; a row whose serialization raises aborts the loop and
    the pending inserts are discarded (`conn.close()` without commit). -/
def insertRowsPending (pending : List String) (rows : List (Option String)) :
    Option (List String) :=
  match rows with
  | [] => some pending
  | none :: _ => none
  | some c :: rest => insertRowsPending (pending ++ [c]) rest

/-- `upload_ai_training_data` (app.py lines 141-171) acting on the
    `academic_docs` table (its `content` column). `err` is the text `str(e)`
    of the exception on the failing paths. -/
def upload_ai_training_data (docs : List String) (file : UploadedFile)
    (err : String) : List String × Bool × String :=
  match file with
  | UploadedFile.tabular none => (docs, false, "Error processing file: " ++ err)
  | UploadedFile.tabular (some rows) =>
    match insertRowsPending [] rows with
    | some pending =>
      (docs ++ pending, true, "AI Training Data Uploaded Successfully.")
    | none => (docs, false, "Error processing file: " ++ err)
  | UploadedFile.jsonFile none => (docs, false, "Error processing file: " ++ err)
  | UploadedFile.jsonFile (some d) =>
    (docs ++ [d], true, "AI Training Data Uploaded Successfully.")
  | UploadedFile.pdfFile none => (docs, false, "Error processing file: " ++ err)
  | UploadedFile.pdfFile (some pages) =>
    (docs ++ [String.intercalate "\n" (pages.filter (fun t => !(t == "")))],
      true, "AI Training Data Uploaded Successfully.")
  | UploadedFile.other =>
    (docs, false, "Invalid file format. Supported formats: CSV, XLSX, JSON, PDF")

/-- app.py line 183: join all stored contents with single spaces and slice to
    the first 4000 characters. -/
def knowledge_base (docs : List String) : String :=
  (String.intercalate " " docs).take 4000

/-- System prompt of the chat-completion call (app.py line 188). -/
def system_prompt : String := "You are a helpful academic assistant."

/-- Model identifier of the chat-completion call (app.py line 191). -/
def groq_model : String := "llama-3.3-70b-versatile"

/-- One outbound chat-completion request (app.py lines 186-192). -/
structure GroqCall where
  system_content : String
  user_content : String
  model : String
deriving DecidableEq

/-- The outbound request built at app.py lines 186-192: fixed system prompt,
    user prompt `f"{query}\n\nContext:\n{knowledge_base}"`, fixed model. -/
def groq_call (docs : List String) (query : String) : GroqCall :=
  ⟨system_prompt, query ++ "\n\nContext:\n" ++ knowledge_base docs, groq_model⟩

/-- `academic_query` (app.py lines 173-198). `docs` is the `content` column of
    `academic_docs` in storage order; `api` is the remote service: `Except.ok`
    is the returned message content, `Except.error` the raised exception text.
    The first component lists the outbound calls issued (empty or a
    singleton), the second is the returned string. -/
def academic_query (docs : List String) (query : String)
    (api : GroqCall → Except String String) : List GroqCall × String :=
  if docs.isEmpty then
    ([], "No academic data available. Please upload training data.")
  else
    match api (groq_call docs query) with
    | Except.ok r => ([groq_call docs query], r)
    | Except.error e => ([groq_call docs query], "AI Error: " ++ e)

/-- Filesystem model: association list from path to content. -/
def fsRemove (fs : List (String × String)) (p : String) : List (String × String) :=
  fs.filter (fun e => !(e.1 == p))

/-- Writing a file replaces any previous content at that path. -/
def fsWrite (fs : List (String × String)) (p c : String) : List (String × String) :=
  (p, c) :: fsRemove fs p

/-- os.path.exists. -/
def fsExists (fs : List (String × String)) (p : String) : Bool :=
  fs.any (fun e => e.1 == p)

/-- Reading a file. -/
def fsRead (fs : List (String × String)) (p : String) : Option String :=
  (fs.find? (fun e => e.1 == p)).map Prod.snd

/-- app.py lines 222-223: the temporary output path of `generate_certificate`,
    with `os.getcwd()` as a parameter. -/
def cert_filepath (cwd student_id cert_type : String) : String :=
  cwd ++ "/" ++ student_id ++ "_" ++ cert_type.toLower ++ "_certificate.pdf"

/-- Text drawn on the overlay canvas (app.py lines 236-239). -/
def overlay_lines (student_id cert_type current_date : String) : List String :=
  ["Student ID: " ++ student_id,
   "Certificate Type: " ++ cert_type,
   "Date Issued: " ++ current_date]

/-- The template first page with the overlay merged onto it (app.py lines
    228-245), abstracted to the template content paired with the drawn text. -/
def merged_cert_content (template_content student_id cert_type current_date : String) :
    String :=
  template_content ++ "\n" ++
    String.intercalate "\n" (overlay_lines student_id cert_type current_date)

/-- Text drawn by the from-scratch branch (app.py lines 251-275), including
    the category-conditional boilerplate at lines 261-266. -/
def scratch_cert_lines (student_id cert_type current_date : String) : List String :=
  ["ACADEMIC INSTITUTION", cert_type ++ " Certificate"] ++
  (if cert_type.toLower == "bonafide" then
    ["This is to certify that " ++ student_id ++ " is a bonafide student",
     "of our institution and is currently pursuing their education with us."]
   else if cert_type.toLower == "noc" then
    ["This is to certify that " ++ student_id ++ " is granted a No Objection",
     "Certificate for their intended activities outside the institution."]
   else []) ++
  ["Date: " ++ current_date, "Signature", "________________", "Principal"]

/-- Content written by the from-scratch branch. -/
def scratch_cert_content (student_id cert_type current_date : String) : String :=
  String.intercalate "\n" (scratch_cert_lines student_id cert_type current_date)

/-- Lookup in the `certificate_templates` table (app.py lines 216-220). -/
def lookupTemplate (templates : List (String × String)) (cert_type : String) :
    Option String :=
  (templates.find? (fun t => t.1 == cert_type)).map Prod.snd

/-- The branch at app.py line 225: overlay content when a template row exists
    and its file exists on disk, from-scratch content otherwise. -/
def cert_content (templates fs : List (String × String))
    (student_id cert_type current_date : String) : String :=
  match lookupTemplate templates cert_type with
  | some tpath =>
    if fsExists fs tpath then
      merged_cert_content ((fsRead fs tpath).getD "") student_id cert_type current_date
    else
      scratch_cert_content student_id cert_type current_date
  | none => scratch_cert_content student_id cert_type current_date

/-- `generate_certificate` (app.py lines 215-284): pick overlay or scratch
    content, write it to the temporary path, read the bytes back, delete the
    file if it exists, return the bytes. `templates` is the
    `certificate_templates` table, `fs` the filesystem, `current_date` the
    formatted clock value. Returns the final filesystem and the bytes. -/
def generate_certificate (templates : List (String × String))
    (fs : List (String × String)) (cwd student_id cert_type current_date : String) :
    List (String × String) × String :=
  let filepath := cert_filepath cwd student_id cert_type
  let content := cert_content templates fs student_id cert_type current_date
  let fs1 := fsWrite fs filepath content
  let pdf_bytes := (fsRead fs1 filepath).getD ""
  let fs2 := if fsExists fs1 filepath then fsRemove fs1 filepath else fs1
  (fs2, pdf_bytes)

/-! Helper lemmas. -/

theorem find_request_set_status (reqs : List LeaveRequest) (lid : Nat) (s : String) :
    find_request (set_status reqs lid s) lid =
      (find_request reqs lid).map (fun r => { r with status := s }) := by
  induction reqs with
  | nil => rfl
  | cons r rs ih =>
    by_cases h : r.id = lid
    · subst h
      have hhead : set_status (r :: rs) r.id s =
          { r with status := s } :: set_status rs r.id s := by
        simp [set_status]
      have h1 : (fun x : LeaveRequest => x.id == r.id) { r with status := s } = true := by
        simp
      have h2 : (fun x : LeaveRequest => x.id == r.id) r = true := by simp
      rw [find_request, find_request, hhead,
        @List.find?_cons_of_pos LeaveRequest (fun x => x.id == r.id)
          { r with status := s } (set_status rs r.id s) h1,
        @List.find?_cons_of_pos LeaveRequest (fun x => x.id == r.id) r rs h2]
      rfl
    · have hhead : set_status (r :: rs) lid s = r :: set_status rs lid s := by
        simp [set_status, h]
      have h1 : ¬ ((fun x : LeaveRequest => x.id == lid) r = true) := by simpa using h
      rw [find_request, find_request, hhead,
        @List.find?_cons_of_neg LeaveRequest (fun x => x.id == lid) r
          (set_status rs lid s) h1,
        @List.find?_cons_of_neg LeaveRequest (fun x => x.id == lid) r rs h1]
      exact ih

theorem insertRowsPending_of_mem_none (rows : List (Option String))
    (h : none ∈ rows) (pending : List String) :
    insertRowsPending pending rows = none := by
  induction rows generalizing pending with
  | nil => cases h
  | cons a rest ih =>
    cases a with
    | none => rfl
    | some c =>
      rcases List.mem_cons.mp h with h1 | h2
      · exact absurd h1 (by simp)
      · exact ih h2 (pending ++ [c])

theorem string_take_length (s : String) (n : Nat) :
    (s.take n).length = min n s.length := by
  rw [String.take_eq]
  exact List.length_take n s.data

theorem fsExists_fsRemove_self (fs : List (String × String)) (p : String) :
    fsExists (fsRemove fs p) p = false := by
  simp only [fsExists, fsRemove]
  rw [List.any_eq_false]
  intro e he
  have hmem := List.of_mem_filter he
  simpa using hmem

/-! Claims. -/

/-- C1 (counterexample): leave request 1 has status "approved", yet
    reject_leave_request changes it to "rejected"; a decided status is not
    left unchanged by the decision operations. -/
theorem C1_counterexample :
    reject_leave_request
        [⟨1, "s1", "m1", 6, "2026-01-01", "2026-01-07", "approved"⟩] 1 =
      [⟨1, "s1", "m1", 6, "2026-01-01", "2026-01-07", "rejected"⟩] ∧
    ("rejected" : String) ≠ "approved" :=
  ⟨rfl, by decide⟩

/-- C1 (amended): a decided status is not monotone. Even when the request with
    the given id already has status "approved" or "rejected",
    reject_leave_request still sets it to "rejected" and approve_leave_request
    still sets it to "approved": both operations overwrite unconditionally, so
    a later opposite decision changes an already-decided status. -/
theorem C1_amended_decisions_overwrite (reqs : List LeaveRequest) (lid : Nat)
    (r : LeaveRequest) (h : find_request reqs lid = some r)
    (hdec : r.status = "approved" ∨ r.status = "rejected") :
    find_request (reject_leave_request reqs lid) lid =
      some { r with status := "rejected" } ∧
    find_request (approve_leave_request reqs lid) lid =
      some { r with status := "approved" } := by
  constructor <;>
    simp [approve_leave_request, reject_leave_request, find_request_set_status, h]

/-- C1 (witness for the amended theorem). -/
theorem C1_amended_witness :
    find_request
        (reject_leave_request [⟨1, "s1", "m1", 6, "a", "b", "approved"⟩] 1) 1 =
      some ⟨1, "s1", "m1", 6, "a", "b", "rejected"⟩ ∧
    find_request
        (approve_leave_request [⟨1, "s1", "m1", 6, "a", "b", "approved"⟩] 1) 1 =
      some ⟨1, "s1", "m1", 6, "a", "b", "approved"⟩ :=
  C1_amended_decisions_overwrite [⟨1, "s1", "m1", 6, "a", "b", "approved"⟩] 1
    ⟨1, "s1", "m1", 6, "a", "b", "approved"⟩ rfl (Or.inl rfl)

/-- C2: approve_leave_request and reject_leave_request set the status of the
    identified request exactly to the requested value, with no check that the
    request is still pending; applying a second, different decision leaves the
    second decision as the final status. -/
theorem C2_decide_sets_status (reqs : List LeaveRequest) (lid : Nat)
    (r : LeaveRequest) (h : find_request reqs lid = some r) :
    find_request (approve_leave_request reqs lid) lid =
      some { r with status := "approved" } ∧
    find_request (reject_leave_request reqs lid) lid =
      some { r with status := "rejected" } ∧
    find_request (reject_leave_request (approve_leave_request reqs lid) lid) lid =
      some { r with status := "rejected" } ∧
    find_request (approve_leave_request (reject_leave_request reqs lid) lid) lid =
      some { r with status := "approved" } := by
  refine ⟨?_, ?_, ?_, ?_⟩ <;>
    simp [approve_leave_request, reject_leave_request, find_request_set_status, h]

/-- C2 (witness). -/
theorem C2_witness :
    find_request
        (approve_leave_request [⟨1, "s1", "m1", 6, "a", "b", "pending"⟩] 1) 1 =
      some ⟨1, "s1", "m1", 6, "a", "b", "approved"⟩ ∧
    find_request
        (reject_leave_request [⟨1, "s1", "m1", 6, "a", "b", "pending"⟩] 1) 1 =
      some ⟨1, "s1", "m1", 6, "a", "b", "rejected"⟩ ∧
    find_request
        (reject_leave_request
          (approve_leave_request [⟨1, "s1", "m1", 6, "a", "b", "pending"⟩] 1) 1) 1 =
      some ⟨1, "s1", "m1", 6, "a", "b", "rejected"⟩ ∧
    find_request
        (approve_leave_request
          (reject_leave_request [⟨1, "s1", "m1", 6, "a", "b", "pending"⟩] 1) 1) 1 =
      some ⟨1, "s1", "m1", 6, "a", "b", "approved"⟩ :=
  C2_decide_sets_status [⟨1, "s1", "m1", 6, "a", "b", "pending"⟩] 1
    ⟨1, "s1", "m1", 6, "a", "b", "pending"⟩ rfl

/-- C3: for every day count d ≤ 5, process_leave_request inserts exactly one
    row with status "approved" and mentor_id "Auto-Approved", regardless of
    the mentor_assignments table, and returns success. -/
theorem C3_auto_approved (db : DB) (sid : String) (days : Int)
    (sd ed : String) (hd : days ≤ 5) :
    process_leave_request db sid days sd ed =
      ({ db with
          leave_requests := db.leave_requests ++
            [⟨db.next_id, sid, "Auto-Approved", days, sd, ed, "approved"⟩],
          next_id := db.next_id + 1 },
        true, leave_message days "Auto-Approved" "approved") := by
  simp [process_leave_request, insertLeave, hd]

/-- C3 (witness): a student with no mentor assignment still gets an
    auto-approved request for 3 days. -/
theorem C3_witness :
    process_leave_request ⟨[], [], 1⟩ "alice" 3 "2026-10-12" "2026-10-15" =
      (⟨[⟨1, "alice", "Auto-Approved", 3, "2026-10-12", "2026-10-15", "approved"⟩],
          [], 2⟩,
        true, leave_message 3 "Auto-Approved" "approved") :=
  C3_auto_approved ⟨[], [], 1⟩ "alice" 3 "2026-10-12" "2026-10-15" (by decide)

/-- C4: for every day count d > 5 and a student with no mentor assignment,
    process_leave_request returns failure with the no-mentor message and
    leaves the database (in particular leave_requests) unchanged. -/
theorem C4_no_mentor_unchanged (db : DB) (sid : String) (days : Int)
    (sd ed : String) (hd : 5 < days)
    (hm : db.mentor_assignments.find? (fun a => a.1 == sid) = none) :
    process_leave_request db sid days sd ed =
      (db, false, "No mentor found for this student.") := by
  have h5 : ¬ days ≤ 5 := not_le.mpr hd
  simp [process_leave_request, h5, hm]

/-- C4 (witness). -/
theorem C4_witness :
    process_leave_request ⟨[], [], 1⟩ "alice" 6 "2026-10-12" "2026-10-18" =
      (⟨[], [], 1⟩, false, "No mentor found for this student.") :=
  C4_no_mentor_unchanged ⟨[], [], 1⟩ "alice" 6 "2026-10-12" "2026-10-18"
    (by decide) rfl

/-- C5: for every day count d > 5 and a student whose mentor assignment is M,
    process_leave_request inserts exactly one row with status "pending" and
    mentor_id M, and returns success. -/
theorem C5_pending_routed (db : DB) (sid : String) (days : Int)
    (sd ed M : String) (hd : 5 < days)
    (hm : (db.mentor_assignments.find? (fun a => a.1 == sid)).map Prod.snd =
      some M) :
    process_leave_request db sid days sd ed =
      ({ db with
          leave_requests := db.leave_requests ++
            [⟨db.next_id, sid, M, days, sd, ed, "pending"⟩],
          next_id := db.next_id + 1 },
        true, leave_message days M "pending") := by
  have h5 : ¬ days ≤ 5 := not_le.mpr hd
  simp [process_leave_request, insertLeave, h5, hm]

/-- C5 (witness). -/
theorem C5_witness :
    process_leave_request ⟨[], [("alice", "mentor1")], 1⟩ "alice" 6
        "2026-10-12" "2026-10-18" =
      (⟨[⟨1, "alice", "mentor1", 6, "2026-10-12", "2026-10-18", "pending"⟩],
          [("alice", "mentor1")], 2⟩,
        true, leave_message 6 "mentor1" "pending") :=
  C5_pending_routed ⟨[], [("alice", "mentor1")], 1⟩ "alice" 6
    "2026-10-12" "2026-10-18" "mentor1" (by decide) rfl

/-- C6 (counterexample): ingesting a tabular file whose first row serializes
    to "row1" and whose second row raises leaves academic_docs empty: the
    already-processed first row is NOT stored, contradicting the claim that
    rows are committed individually and survive a mid-stream failure. -/
theorem C6_counterexample :
    (upload_ai_training_data []
        (UploadedFile.tabular (some [some "row1", none])) "boom").1 = [] ∧
    "row1" ∉ (upload_ai_training_data []
        (UploadedFile.tabular (some [some "row1", none])) "boom").1 :=
  ⟨rfl, by decide⟩

/-- C6 (amended): tabular rows are inserted inside one transaction that is
    committed only after the whole row loop; a failure mid-stream closes the
    connection without committing, discarding the pending inserts, so
    academic_docs is unchanged and no already-processed row of the failing
    file is stored. -/
theorem C6_amended_rollback (docs : List String) (rows : List (Option String))
    (err : String) (h : none ∈ rows) :
    upload_ai_training_data docs (UploadedFile.tabular (some rows)) err =
      (docs, false, "Error processing file: " ++ err) := by
  simp [upload_ai_training_data, insertRowsPending_of_mem_none rows h []]

/-- C6 (witness for the amended theorem). -/
theorem C6_witness :
    upload_ai_training_data ["old"]
        (UploadedFile.tabular (some [some "row1", none])) "boom" =
      (["old"], false, "Error processing file: " ++ "boom") :=
  C6_amended_rollback ["old"] [some "row1", none] "boom" (by decide)

/-- C7: for a nonempty academic_docs table, academic_query issues exactly one
    outbound call whose user prompt embeds, after the question, the context:
    the space-joined concatenation of all stored contents truncated to its
    first 4000 characters; the context has exactly 4000 characters whenever
    the full concatenation is longer than 4000. -/
theorem C7_context_truncated (docs : List String) (query : String)
    (api : GroqCall → Except String String) (h : docs ≠ []) :
    (academic_query docs query api).1 =
      [⟨system_prompt,
        query ++ "\n\nContext:\n" ++ (String.intercalate " " docs).take 4000,
        groq_model⟩] ∧
    knowledge_base docs = (String.intercalate " " docs).take 4000 ∧
    (4000 < (String.intercalate " " docs).length →
      (knowledge_base docs).length = 4000) := by
  refine ⟨?_, rfl, ?_⟩
  · cases docs with
    | nil => exact absurd rfl h
    | cons a as =>
      show (academic_query (a :: as) query api).1 = [groq_call (a :: as) query]
      cases hr : api (groq_call (a :: as) query) with
      | ok r => simp [academic_query, hr]
      | error e => simp [academic_query, hr]
  · intro hlen
    rw [knowledge_base, string_take_length]
    exact Nat.min_eq_left (Nat.le_of_lt hlen)

/-- C7 (witness). -/
theorem C7_witness :
    (academic_query ["a"] "q" (fun _ => Except.ok "r")).1 =
      [⟨system_prompt,
        "q" ++ "\n\nContext:\n" ++ (String.intercalate " " ["a"]).take 4000,
        groq_model⟩] ∧
    knowledge_base ["a"] = (String.intercalate " " ["a"]).take 4000 ∧
    (4000 < (String.intercalate " " ["a"]).length →
      (knowledge_base ["a"]).length = 4000) :=
  C7_context_truncated ["a"] "q" (fun _ => Except.ok "r") (by decide)

/-- C8: with zero rows in academic_docs, academic_query returns the fixed
    no-data message and issues no outbound call (the call list is empty), for
    every question and every remote behaviour. -/
theorem C8_no_docs_no_call (query : String)
    (api : GroqCall → Except String String) :
    academic_query [] query api =
      ([], "No academic data available. Please upload training data.") :=
  rfl

/-- C9: after generate_certificate returns, the temporary output file no
    longer exists on disk, and the final filesystem is the initial one with
    that path absent: the only produced artifact is the returned byte
    string. -/
theorem C9_no_temp_file_left (templates fs : List (String × String))
    (cwd student_id cert_type current_date : String) :
    fsExists
        (generate_certificate templates fs cwd student_id cert_type current_date).1
        (cert_filepath cwd student_id cert_type) = false ∧
    (generate_certificate templates fs cwd student_id cert_type current_date).1 =
      fsRemove fs (cert_filepath cwd student_id cert_type) := by
  have hex : fsExists
      (fsWrite fs (cert_filepath cwd student_id cert_type)
        (cert_content templates fs student_id cert_type current_date))
      (cert_filepath cwd student_id cert_type) = true := by
    simp [fsWrite, fsExists]
  have hkey : fsRemove
      (fsWrite fs (cert_filepath cwd student_id cert_type)
        (cert_content templates fs student_id cert_type current_date))
      (cert_filepath cwd student_id cert_type) =
      fsRemove fs (cert_filepath cwd student_id cert_type) := by
    simp [fsWrite, fsRemove, List.filter_filter]
  refine ⟨?_, ?_⟩ <;>
    simp [generate_certificate, hex, hkey, fsExists_fsRemove_self]

/-- C10: academic_query branches only on row existence, not content. Whenever
    at least one row exists — even if every stored content is empty —
    exactly one outbound call is issued; a PDF upload whose pages all extract
    no text still inserts one empty document; and the context computed from a
    single empty document is the empty string. -/
theorem C10_call_on_row_existence (docs : List String) (query : String)
    (api : GroqCall → Except String String) (docs0 pages : List String)
    (err : String) (h : docs ≠ []) (hp : ∀ p ∈ pages, p = "") :
    (academic_query docs query api).1 = [groq_call docs query] ∧
    (upload_ai_training_data docs0 (UploadedFile.pdfFile (some pages)) err).1 =
      docs0 ++ [""] ∧
    knowledge_base [""] = "" := by
  refine ⟨?_, ?_, ?_⟩
  · cases docs with
    | nil => exact absurd rfl h
    | cons a as =>
      cases hr : api (groq_call (a :: as) query) with
      | ok r => simp [academic_query, hr]
      | error e => simp [academic_query, hr]
  · have hfil : pages.filter (fun t => !(t == "")) = [] := by
      rw [List.filter_eq_nil_iff]
      intro p hpmem
      simp [hp p hpmem]
    simp [upload_ai_training_data, hfil]
    rfl
  · rw [knowledge_base, show String.intercalate " " [""] = "" from rfl,
      String.take_eq]
    rfl

/-- C10 (witness): one row holding the empty string still triggers the
    outbound call, with an empty context. -/
theorem C10_witness :
    (academic_query [""] "q" (fun _ => Except.ok "r")).1 = [groq_call [""] "q"] ∧
    (upload_ai_training_data [] (UploadedFile.pdfFile (some ["", ""])) "e").1 =
      [] ++ [""] ∧
    knowledge_base [""] = "" :=
  C10_call_on_row_existence [""] "q" (fun _ => Except.ok "r") [] ["", ""] "e"
    (by decide) (by decide)

end SAP
